import Mathlib

/-!
Verification of the scholarship-hunter repository against its
natural-language specification.

The AI-agent service layer lives in apps/ai_agent/services.py, whose
compiled CPython 3.10 bytecode is present in the repository inside
src/apps/realtime/__pycache__/models.cpython-310.pyc (the blob contains
three concatenated documents; the second is the services module, with its
embedded path apps/ai_agent/services.py). The definitions below are read
off that bytecode: NovitaAIService.chat_completion and
ScholarshipHunterAI.make_decision, analyze_content, think,
broadcast_thinking and record_metric. The frontend pieces
(WebSocketService, LiveAIHunter, apiUtils) are embedded directly from the
JavaScript source under src/frontend and the unnamed frontend parts.
-/

namespace AgentLayer

/-- Outcome of the one outbound HTTP POST performed by
NovitaAIService.chat_completion: either a response with a status code and
(for a well-formed body) the first choice text plus the optional
usage.total_tokens count, carrying the clock readings around the call, or
an exception raised by the transport. -/
inductive PostOutcome
  | response (status : Nat) (content : String) (usage : Option Nat)
      (startMs endMs : Nat)
  | exception (msg : String)
  deriving Repr, DecidableEq

/-- The dictionary returned by chat_completion, split by the presence of
the error key: a 200 response returns the parsed body (first choice text,
optional token usage) with processing_time set to the elapsed call time; a
non-200 response or an exception returns an error dictionary. -/
inductive ChatCompletionResult
  | success (content : String) (usage : Option Nat) (processingTime : Int)
  | failure (error : String) (processingTime : Int)
  deriving Repr, DecidableEq

/-- Whether a chat_completion result is the error dictionary. -/
def ChatCompletionResult.isFailure : ChatCompletionResult → Bool
  | .success _ _ _ => false
  | .failure _ _ => true

/-- NovitaAIService.chat_completion, from the bytecode: when the response
status equals 200 exactly, return the parsed body with processing_time set
to the elapsed time; otherwise return the error dictionary with message
"API error: " followed by the status, and the elapsed time; on a transport
exception return the error dictionary with the exception text and
processing_time 0. The client never raises. -/
def chat_completion : PostOutcome → ChatCompletionResult
  | .response status content usage s e =>
      if status = 200 then .success content usage ((e : Int) - (s : Int))
      else .failure ("API error: " ++ toString status) ((e : Int) - (s : Int))
  | .exception msg => .failure msg 0

/-- The dynamic dictionary json.loads produces for a decision answer, with
each key optional, matching the .get accesses in make_decision. -/
structure DecisionData where
  decision : Option String
  reasoning : Option String
  confidence : Option Rat
  additionalData : Option (List (String × String))
  deriving Repr, DecidableEq

/-- A persisted AIDecision row, with the columns make_decision fills:
decision_type, input_data, output_data (the whole decision dictionary, or
the empty dictionary on failure), reasoning, confidence_score,
processing_time, tokens_used, success and error_message. The agent foreign
key is constant per engine instance and is omitted. -/
structure AIDecision where
  decisionType : String
  inputData : String
  outputData : DecisionData
  reasoning : String
  confidenceScore : Rat
  processingTime : Int
  tokensUsed : Nat
  success : Bool
  errorMessage : Option String
  deriving Repr, DecidableEq

/-- A persisted AIThought row: think stores the agent name, the thought
type, the content, the importance category string, a fixed confidence of
0.8, and the creation timestamp. -/
structure AIThought where
  agentName : String
  thoughtType : String
  content : String
  importance : String
  confidence : Rat
  createdAt : Nat
  deriving Repr, DecidableEq

/-- A persisted PerformanceMetric row. -/
structure PerformanceMetric where
  name : String
  value : Rat
  unit : String
  deriving Repr, DecidableEq

/-- A JSON-like value, used for the channel-layer payloads. -/
inductive JValue
  | str (s : String)
  | num (q : Rat)
  | obj (fields : List (String × JValue))

/-- The top-level keys of a JSON-like object. -/
def topKeys : JValue → List String
  | .obj fields => fields.map (fun f => f.1)
  | _ => []

/-- The payload broadcast_thinking sends to the dashboard group, from the
bytecode: type ai_thinking, the agent name under the key agent, and the
thought fields nested under the key thought (its type key holds the
thought type; the timestamp is the ISO rendering of created_at). -/
def dashboardPayload (agentName : String) (t : AIThought) : JValue :=
  .obj [("type", .str "ai_thinking"),
        ("agent", .str agentName),
        ("thought", .obj
          [("type", .str t.thoughtType),
           ("content", .str t.content),
           ("importance", .str t.importance),
           ("confidence", .num t.confidence),
           ("timestamp", .str (toString t.createdAt))])]

/-- The flat envelope the claim describes, written from the claim words:
type ai_thinking with agentName, content, thoughtType, confidence and
timestamp at top level. Used only to compare the claim against the
payload the code builds. -/
def claimEnvelope (agentName content thoughtType : String) (confidence : Rat)
    (timestamp : Nat) : JValue :=
  .obj [("type", .str "ai_thinking"),
        ("agentName", .str agentName),
        ("content", .str content),
        ("thoughtType", .str thoughtType),
        ("confidence", .num confidence),
        ("timestamp", .str (toString timestamp))]

/-- The persistent storage touched by the agent layer, plus the broadcast
attempts on the channel layer and the swallowed-error log. -/
structure AgentState where
  decisions : List AIDecision
  thoughts : List AIThought
  metrics : List PerformanceMetric
  broadcasts : List (String × JValue)
  logs : List String

/-- The empty storage state. -/
def AgentState.empty : AgentState := ⟨[], [], [], [], []⟩

/-- ScholarshipHunterAI.record_metric, from the bytecode: fire-and-forget
persist of a named numeric metric; a persistence error is logged and
swallowed. -/
def record_metric (name : String) (value : Rat) (unit : String)
    (st : AgentState) : AgentState :=
  { st with metrics := ⟨name, value, unit⟩ :: st.metrics }

/-- ScholarshipHunterAI.broadcast_thinking, from the bytecode: when a
channel layer is configured, send the dashboardPayload for the given
thought to the fixed dashboard group; every exception inside the function
is caught and logged, so broadcasting never raises. The publish callback
observes the thought store as it is at call time. -/
def broadcast_thinking (publish : List AIThought → String → JValue → Bool)
    (channelUp : Bool) (agentName : String) (t : AIThought)
    (st : AgentState) : AgentState :=
  if channelUp then
    let payload := dashboardPayload agentName t
    let st1 := { st with broadcasts := ("dashboard", payload) :: st.broadcasts }
    let delivered := publish st.thoughts "dashboard" payload
    if delivered then st1
    else { st1 with logs := ("Error broadcasting thinking: " ++ t.content) :: st1.logs }
  else st

/-- ScholarshipHunterAI.think, from the bytecode: persist an AIThought row
with the fixed confidence 0.8, then call broadcast_thinking on the
persisted row, then return the thought. A failure inside the try block is
logged and swallowed; broadcast_thinking itself never raises, so the
thought is returned whenever the durable write succeeds. -/
def think (publish : List AIThought → String → JValue → Bool)
    (channelUp : Bool) (agentName content thoughtType importance : String)
    (now : Nat) (st : AgentState) : AIThought × AgentState :=
  let t : AIThought := ⟨agentName, thoughtType, content, importance, (4 : Rat) / 5, now⟩
  let st1 := { st with thoughts := t :: st.thoughts }
  let st2 := broadcast_thinking publish channelUp agentName t st1
  (t, st2)

/-- The user prompt make_decision composes, from the bytecode (the input
data arrives already serialized). -/
def decisionUserPrompt (decisionType context inputData : String) : String :=
  "\nMake a decision about: " ++ decisionType ++
  "\n\nContext: " ++ context ++
  "\n\nInput data: " ++ inputData ++
  "\n\nPlease provide:\n1. Your decision\n2. Detailed reasoning\n3. Confidence score (0-1)\n4. Any additional data or recommendations\n\nRespond in JSON format with keys: decision, reasoning, confidence, additional_data\n"

/-- ScholarshipHunterAI.make_decision, from the bytecode. One completion
call on the composed prompt; the engine computes processing_time from its
own clock readings. If the result carries the error key, an exception
with message "AI decision failed: " plus the error is raised; the handler
persists an AIDecision row with the empty output dictionary, reasoning
"Decision failed: " plus the message, confidence_score 0, success false
and error_message set, and only then re-raises (the error value carries
the post-persist state). Otherwise the text is parsed as JSON; on parse
failure the fallback dictionary keeps the whole raw text under decision,
sets reasoning to "AI response was not in JSON format", confidence 0.5 and
empty additional data. The success row stores the dictionary as
output_data, reasoning and confidence_score via .get with defaults (the
confidence is not clamped), the token usage with default 0, and success
true; then a decision_time metric is recorded. -/
def make_decision (complete : String → ChatCompletionResult)
    (parse : String → Option DecisionData)
    (decisionType inputData context : String)
    (startMs afterMs : Nat) (st : AgentState) :
    Except (String × AgentState) (AIDecision × AgentState) :=
  let processingTime : Int := (afterMs : Int) - (startMs : Int)
  match complete (decisionUserPrompt decisionType context inputData) with
  | .failure err _ =>
      let msg := "AI decision failed: " ++ err
      let row : AIDecision :=
        { decisionType := decisionType
          inputData := inputData
          outputData := ⟨none, none, none, none⟩
          reasoning := "Decision failed: " ++ msg
          confidenceScore := 0
          processingTime := processingTime
          tokensUsed := 0
          success := false
          errorMessage := some msg }
      let st1 := { st with decisions := row :: st.decisions }
      .error (msg, st1)
  | .success content usage _ =>
      let dd : DecisionData :=
        match parse content with
        | some d => d
        | none =>
            ⟨some content, some "AI response was not in JSON format",
             some ((1 : Rat) / 2), some []⟩
      let row : AIDecision :=
        { decisionType := decisionType
          inputData := inputData
          outputData := dd
          reasoning := dd.reasoning.getD ""
          confidenceScore := dd.confidence.getD ((1 : Rat) / 2)
          processingTime := processingTime
          tokensUsed := usage.getD 0
          success := true
          errorMessage := none }
      let st1 := { st with decisions := row :: st.decisions }
      let st2 := record_metric "decision_time" (processingTime : Rat) "seconds" st1
      .ok (row, st2)

/-- A candidate scholarship record inside a parsed analysis answer. -/
structure ExtractedScholarship where
  name : String
  provider : String
  country : String
  tunisiaEligible : Bool
  relevanceScore : Rat
  deriving Repr, DecidableEq

/-- The well-formed shape of a parsed analysis answer: a scholarships
array and an analysis summary. -/
structure AnalysisParsed where
  scholarships : List ExtractedScholarship
  analysisSummary : String
  deriving Repr, DecidableEq

/-- The dictionary analyze_content returns: the parsed extraction on
success, or an error dictionary with an empty scholarships array (the
parse-failure branch additionally attaches the raw response). -/
structure AnalysisReturn where
  error : Option String
  rawResponse : Option String
  scholarships : List ExtractedScholarship
  analysisSummary : String
  deriving Repr, DecidableEq

/-- The slice bound applied to the content inside the analysis prompt,
written inline in the source as the first 8000 characters. -/
def analysisContentCap : Nat := 8000

/-- The content slice analyze_content embeds in its prompt: the first
analysisContentCap characters. -/
def truncateContent (s : String) : String :=
  String.mk (s.data.take analysisContentCap)

/-- The user prompt analyze_content composes, from the bytecode; the
content argument is already truncated by the caller. -/
def analysisPrompt (url analysisType truncated : String) : String :=
  "\nAnalyze this web content for scholarship opportunities:\n\nURL: " ++ url ++
  "\nAnalysis Type: " ++ analysisType ++
  "\n\nContent:\n" ++ truncated ++
  "  # Limit content to avoid token limits\n\nPlease extract and analyze:\n1. Any scholarship opportunities mentioned\n2. Eligibility for Tunisia students\n3. Relevance to AI/Web Development/IT fields\n4. Application deadlines and requirements\n5. Funding information (full/partial)\n6. Contact details and application URLs\n\nFor each scholarship found, provide structured data including:\n- name, provider, country, field_of_study, academic_level\n- tunisia_eligible (boolean), funding_type, application_deadline\n- application_url, requirements, relevance_scores\n\nRespond in JSON format with a \u0027scholarships\u0027 array and \u0027analysis_summary\u0027."

/-- ScholarshipHunterAI.analyze_content, from the bytecode: emit a
starting thought via think, send one completion call on the prompt built
from the truncated content, and branch: an error result returns the error
dictionary with an empty scholarships array immediately; a successful
result is parsed as JSON — on failure a content_analysis_failure metric is
recorded and the error dictionary with message "Failed to parse AI
analysis", the raw response, and an empty scholarships array is returned;
on success a content_analysis_success metric is recorded and the
extraction is returned. The whole body is inside try/except, so the
function never raises. -/
def analyze_content (complete : String → ChatCompletionResult)
    (parse : String → Option AnalysisParsed)
    (publish : List AIThought → String → JValue → Bool) (channelUp : Bool)
    (agentName content url analysisType : String) (now : Nat)
    (st : AgentState) : AnalysisReturn × AgentState :=
  let st1 :=
    (think publish channelUp agentName
      ("Analyzing content from " ++ url ++ " for " ++ analysisType)
      "analysis" "medium" now st).2
  match complete (analysisPrompt url analysisType (truncateContent content)) with
  | .failure err _ => (⟨some err, none, [], ""⟩, st1)
  | .success c _ _ =>
      match parse c with
      | some p =>
          let st2 := record_metric "content_analysis_success" 1 "count" st1
          (⟨none, none, p.scholarships, p.analysisSummary⟩, st2)
      | none =>
          let st2 := record_metric "content_analysis_failure" 1 "count" st1
          (⟨some "Failed to parse AI analysis", some c, [], ""⟩, st2)

end AgentLayer
namespace Frontend

/-! Embeddings of the frontend source files under src/frontend and the
unnamed frontend parts. -/

/-- Reconnection cap of WebSocketService (websocket.js line 14). -/
def maxReconnectAttempts : Nat := 5

/-- Base reconnection delay in milliseconds (websocket.js line 15). -/
def reconnectDelay : Nat := 1000

/-- Outcome of WebSocketService.attemptReconnect: either give up, or
schedule a reconnect after a delay, bumping the stored attempt counter. -/
inductive ReconnectAction
  | giveUp
  | retryAfter (delayMs : Nat) (newAttempts : Nat)
  deriving Repr, DecidableEq

/-- WebSocketService.attemptReconnect (websocket.js lines 204-221): when the
stored attempt count has reached maxReconnectAttempts, log and stop;
otherwise schedule a reconnect after reconnectDelay times 2 to the power of
the attempt count (exponential backoff) and store attempts plus one. -/
def attemptReconnect (attempts : Nat) : ReconnectAction :=
  if attempts ≥ maxReconnectAttempts then .giveUp
  else .retryAfter (reconnectDelay * 2 ^ attempts) (attempts + 1)

/-- Numeric value of the browser constant WebSocket.OPEN. -/
def WebSocketOPEN : Nat := 1

/-- A registered browser WebSocket, reduced to its readyState field. -/
structure WSConn where
  readyState : Nat
  deriving Repr, DecidableEq

/-- The connections map of WebSocketService, as an association list keyed by
connection id. -/
def lookupConn (connections : List (String × WSConn)) (connectionId : String) :
    Option WSConn :=
  (connections.find? (fun p => p.1 = connectionId)).map (·.2)

/-- WebSocketService.send (websocket.js lines 104-111): if a connection is
registered for the id and its readyState is OPEN, transmit the serialized
message and return true; otherwise transmit nothing and return false. The
second component is the transmitted payload, if any. -/
def sendWS {α : Type} (serialize : α → String)
    (connections : List (String × WSConn)) (connectionId : String)
    (message : α) : Bool × Option String :=
  match lookupConn connections connectionId with
  | some ws =>
      if ws.readyState = WebSocketOPEN then (true, some (serialize message))
      else (false, none)
  | none => (false, none)

/-- A scholarship payload as delivered in a scholarship_found message
(LiveAIHunter component). -/
structure Scholarship where
  name : String
  provider : String
  country : String
  tunisia_eligible : Bool
  ai_relevance_score : Rat
  deriving Repr, DecidableEq

/-- One entry of the aiThoughts list of LiveAIHunter. -/
structure ThoughtItem where
  id : Nat
  thought : String
  ttype : String
  timestamp : Nat
  deriving Repr, DecidableEq

/-- The huntingStats state of LiveAIHunter. -/
structure HuntingStats where
  websitesVisited : Nat
  scholarshipsFound : Nat
  tunisiaEligible : Nat
  timeElapsed : Nat
  deriving Repr, DecidableEq

/-- One entry of the browserHistory list of LiveAIHunter. -/
structure HistEntry where
  url : String
  timestamp : Nat
  deriving Repr, DecidableEq

/-- The component state of LiveAIHunter (part_003 lines 5-21). -/
structure HunterState where
  isHunting : Bool
  currentWebsite : String
  browserContent : String
  aiThoughts : List ThoughtItem
  foundScholarships : List Scholarship
  huntingStats : HuntingStats
  currentAction : String
  browserHistory : List HistEntry
  isLoading : Bool
  deriving Repr, DecidableEq

/-- addAIThought (part_003 lines 35-42): keep the last ten thoughts and
append the new one; the JavaScript id Date.now() is modelled by the
timestamp argument. -/
def addAIThought (now : Nat) (thought ttype : String) (st : HunterState) :
    HunterState :=
  { st with aiThoughts :=
      st.aiThoughts.drop (st.aiThoughts.length - 10) ++ [⟨now, thought, ttype, now⟩] }

/-- simulateBrowserNavigation (part_003 lines 24-32): set the current site
and content, keep the last four history entries plus the new one, and mark
loading. -/
def simulateBrowserNavigation (now : Nat) (url content : String)
    (st : HunterState) : HunterState :=
  { st with
      currentWebsite := url
      browserContent := content
      browserHistory :=
        st.browserHistory.drop (st.browserHistory.length - 4) ++ [⟨url, now⟩]
      isLoading := true }

/-- The discriminated messages handled by handleWebSocketMessage; unknown
covers every type string outside the switch cases, which fall through with
no state change. -/
inductive WSMessage
  | ai_thought (message : String)
  | website_visit (url : String) (content : Option String)
  | scholarship_found (s : Scholarship)
  | ai_decision (message : String)
  | error (message : String)
  | status (message : String)
  | unknown
  deriving Repr, DecidableEq

/-- Whether a message is the scholarship_found case. -/
def WSMessage.isScholarshipFound : WSMessage → Bool
  | .scholarship_found _ => true
  | _ => false

/-- handleWebSocketMessage (part_003 lines 101-131), translated case by
case from the switch statement. -/
def handleWebSocketMessage (now : Nat) (msg : WSMessage) (st : HunterState) :
    HunterState :=
  match msg with
  | .ai_thought m => addAIThought now m "thinking" st
  | .website_visit url content =>
      let st1 := { st with currentAction := "Visiting " ++ url }
      let st2 := simulateBrowserNavigation now url
        (content.getD "Loading website content...") st1
      { st2 with huntingStats :=
          { st2.huntingStats with
              websitesVisited := st2.huntingStats.websitesVisited + 1 } }
  | .scholarship_found s =>
      let st1 := { st with foundScholarships := st.foundScholarships ++ [s] }
      let st2 :=
        { st1 with huntingStats :=
            { st1.huntingStats with
                scholarshipsFound := st1.huntingStats.scholarshipsFound + 1
                tunisiaEligible :=
                  if s.tunisia_eligible then st1.huntingStats.tunisiaEligible + 1
                  else st1.huntingStats.tunisiaEligible } }
      addAIThought now ("Found scholarship: " ++ s.name) "success" st2
  | .ai_decision m => addAIThought now ("Decision: " ++ m) "decision" st
  | .error m => addAIThought now ("Error: " ++ m) "error" st
  | .status m => { st with currentAction := m }
  | .unknown => st

/-- The state reset performed by startHunting (part_003 lines 45-50): stats
zeroed, scholarship, thought and history lists emptied, hunting flag set. -/
def startHuntingReset (st : HunterState) : HunterState :=
  { st with
      isHunting := true
      huntingStats := ⟨0, 0, 0, 0⟩
      foundScholarships := []
      aiThoughts := []
      browserHistory := [] }

/-- Process a sequence of timestamped messages through
handleWebSocketMessage. -/
def processMessages (msgs : List (Nat × WSMessage)) (st : HunterState) :
    HunterState :=
  msgs.foldl (fun s nm => handleWebSocketMessage nm.1 nm.2 s) st

/-- The counter invariants of LiveAIHunter: the Tunisia-eligible counter
never exceeds the found counter, and the found counter equals the length of
the scholarship list. -/
def HunterInv (st : HunterState) : Prop :=
  st.huntingStats.tunisiaEligible ≤ st.huntingStats.scholarshipsFound ∧
  st.huntingStats.scholarshipsFound = st.foundScholarships.length

/-- A parameter value of a query-params object, as distinguished by
apiUtils.buildQueryString: null, undefined, a string, a number, or an array
of strings. -/
inductive ParamValue
  | vNull
  | vUndefined
  | vStr (s : String)
  | vNum (n : Int)
  | vArr (elems : List String)
  deriving Repr, DecidableEq

/-- The key-value pairs appended to URLSearchParams by
apiUtils.buildQueryString (part_002 lines 132-146): entries whose value is
null, undefined or the empty string are skipped; an array value appends one
pair per element in order; any other value appends a single pair. -/
def appendedPairs (params : List (String × ParamValue)) :
    List (String × String) :=
  params.foldl
    (fun acc kv =>
      match kv.2 with
      | .vNull => acc
      | .vUndefined => acc
      | .vStr s => if s = "" then acc else acc ++ [(kv.1, s)]
      | .vNum n => acc ++ [(kv.1, toString n)]
      | .vArr es => acc ++ es.map (fun e => (kv.1, e)))
    []

/-- apiUtils.buildQueryString, at the level of the produced pair list
joined in URLSearchParams.toString order (percent-encoding elided). -/
def buildQueryString (params : List (String × ParamValue)) : String :=
  String.intercalate "&" ((appendedPairs params).map (fun p => p.1 ++ "=" ++ p.2))

/-- Contribution of a single params entry to the query string, written
directly from the claim: null, undefined and empty-string values contribute
nothing, an array value contributes one pair per element preserving order,
and every other value contributes exactly one pair. -/
def entryContribution (kv : String × ParamValue) : List (String × String) :=
  match kv.2 with
  | .vNull => []
  | .vUndefined => []
  | .vStr s => if s = "" then [] else [(kv.1, s)]
  | .vNum n => [(kv.1, toString n)]
  | .vArr es => es.map (fun e => (kv.1, e))

/-- A concrete scholarship payload used to instantiate the theorems. -/
def sampleScholarship : Scholarship :=
  ⟨"ETH Excellence", "ETH Zurich", "Switzerland", true, (9 : Rat) / 10⟩

/-- A concrete idle component state used to instantiate the theorems. -/
def sampleHunter : HunterState :=
  ⟨false, "", "", [], [], ⟨0, 0, 0, 0⟩, "", [], false⟩

end Frontend
namespace Frontend

theorem foldl_flatten_of_pointwise {α β : Type} (f : List β → α → List β)
    (g : α → List β) (hf : ∀ acc a, f acc a = acc ++ g a) :
    ∀ (l : List α) (acc : List β), l.foldl f acc = acc ++ (l.map g).flatten := by
  intro l
  induction l with
  | nil => intro acc; simp
  | cons a t ih => intro acc; simp [hf, ih]

theorem appendedPairs_eq_flatten (params : List (String × ParamValue)) :
    appendedPairs params = (params.map entryContribution).flatten := by
  have h := foldl_flatten_of_pointwise
    (fun acc kv =>
      match kv.2 with
      | .vNull => acc
      | .vUndefined => acc
      | .vStr s => if s = "" then acc else acc ++ [(kv.1, s)]
      | .vNum n => acc ++ [(kv.1, toString n)]
      | .vArr es => acc ++ es.map (fun e => (kv.1, e)))
    entryContribution
    (by
      rintro acc ⟨k, v⟩
      cases v with
      | vNull => simp [entryContribution]
      | vUndefined => simp [entryContribution]
      | vStr s =>
          by_cases hs : s = "" <;> simp [entryContribution, hs]
      | vNum n => simp [entryContribution]
      | vArr es => simp [entryContribution])
    params []
  simpa [appendedPairs] using h

/-- C10: buildQueryString omits every entry whose value is null, undefined
or the empty string; an array-valued entry contributes one key-element pair
per array element in order; every other retained entry contributes exactly
one pair. The pair list appended to the query string is exactly the ordered
concatenation of the per-entry contributions. -/
theorem buildQueryString_entry_behaviour :
    (∀ params : List (String × ParamValue),
       appendedPairs params = (params.map entryContribution).flatten) ∧
    (∀ k : String, entryContribution (k, .vNull) = []) ∧
    (∀ k : String, entryContribution (k, .vUndefined) = []) ∧
    (∀ k : String, entryContribution (k, .vStr "") = []) ∧
    (∀ (k s : String), s ≠ "" → entryContribution (k, .vStr s) = [(k, s)]) ∧
    (∀ (k : String) (n : Int), entryContribution (k, .vNum n) = [(k, toString n)]) ∧
    (∀ (k : String) (es : List String),
       entryContribution (k, .vArr es) = es.map (fun e => (k, e))) ∧
    (∀ params : List (String × ParamValue),
       buildQueryString params =
         String.intercalate "&"
           (((params.map entryContribution).flatten).map (fun p => p.1 ++ "=" ++ p.2))) := by
  refine ⟨appendedPairs_eq_flatten, fun k => rfl, fun k => rfl, fun k => rfl,
    ?_, fun k n => rfl, fun k es => rfl, ?_⟩
  · intro k s hs
    simp [entryContribution, hs]
  · intro params
    rw [buildQueryString, appendedPairs_eq_flatten]

theorem buildQueryString_entry_behaviour_witness :
    ("x" : String) ≠ "" ∧
    entryContribution ("a", .vStr "x") = [("a", "x")] ∧
    appendedPairs
        [("a", .vStr "x"), ("b", .vNull), ("c", .vArr ["1", "2"]),
         ("d", .vStr ""), ("e", .vUndefined), ("f", .vNum 7)]
      = [("a", "x"), ("c", "1"), ("c", "2"), ("f", "7")] :=
  ⟨by decide,
   buildQueryString_entry_behaviour.2.2.2.2.1 "a" "x" (by decide),
   by decide⟩

/-- C9: send returns true and transmits the serialized message exactly when
a connection is registered for the id with readyState OPEN; in every other
case it returns false and transmits nothing (the function is total, so it
never throws). -/
theorem send_transmits_iff {α : Type} (serialize : α → String)
    (conns : List (String × WSConn)) (connectionId : String) (m : α) :
    (∀ ws, lookupConn conns connectionId = some ws →
       (ws.readyState = WebSocketOPEN →
          sendWS serialize conns connectionId m = (true, some (serialize m))) ∧
       (ws.readyState ≠ WebSocketOPEN →
          sendWS serialize conns connectionId m = (false, none))) ∧
    (lookupConn conns connectionId = none →
       sendWS serialize conns connectionId m = (false, none)) ∧
    ((sendWS serialize conns connectionId m).1 = true ↔
       ∃ ws, lookupConn conns connectionId = some ws ∧
         ws.readyState = WebSocketOPEN) ∧
    ((sendWS serialize conns connectionId m).1 = false →
       (sendWS serialize conns connectionId m).2 = none) := by
  refine ⟨?_, ?_, ?_, ?_⟩
  · intro ws hws
    exact ⟨fun hopen => by simp [sendWS, hws, hopen],
           fun hnot => by simp [sendWS, hws, hnot]⟩
  · intro hnone; simp [sendWS, hnone]
  · constructor
    · intro h
      unfold sendWS at h
      cases hl : lookupConn conns connectionId with
      | none => rw [hl] at h; simp at h
      | some ws =>
          rw [hl] at h
          by_cases hr : ws.readyState = WebSocketOPEN
          · exact ⟨ws, rfl, hr⟩
          · simp [hr] at h
    · rintro ⟨ws, hl, hr⟩
      simp [sendWS, hl, hr]
  · intro h
    unfold sendWS at h ⊢
    cases hl : lookupConn conns connectionId with
    | none => simp
    | some ws =>
        rw [hl] at h
        by_cases hr : ws.readyState = WebSocketOPEN
        · simp [hr] at h
        · simp [hr]

theorem addAIThought_stats (now : Nat) (thought ttype : String)
    (st : HunterState) :
    (addAIThought now thought ttype st).huntingStats = st.huntingStats ∧
    (addAIThought now thought ttype st).foundScholarships = st.foundScholarships := by
  simp [addAIThought]

theorem handle_preserves_inv (now : Nat) (msg : WSMessage) (st : HunterState)
    (h : HunterInv st) : HunterInv (handleWebSocketMessage now msg st) := by
  obtain ⟨h1, h2⟩ := h
  cases msg with
  | ai_thought m => exact ⟨by simpa [handleWebSocketMessage, addAIThought] using h1,
      by simpa [handleWebSocketMessage, addAIThought] using h2⟩
  | website_visit url content =>
      refine ⟨?_, ?_⟩ <;>
        simpa [handleWebSocketMessage, simulateBrowserNavigation] using (by assumption)
  | scholarship_found s =>
      constructor
      · by_cases hs : s.tunisia_eligible <;>
          simp [handleWebSocketMessage, addAIThought, hs] <;> omega
      · simp [handleWebSocketMessage, addAIThought, h2]
  | ai_decision m => exact ⟨by simpa [handleWebSocketMessage, addAIThought] using h1,
      by simpa [handleWebSocketMessage, addAIThought] using h2⟩
  | error m => exact ⟨by simpa [handleWebSocketMessage, addAIThought] using h1,
      by simpa [handleWebSocketMessage, addAIThought] using h2⟩
  | status m => exact ⟨by simpa [handleWebSocketMessage] using h1,
      by simpa [handleWebSocketMessage] using h2⟩
  | unknown => exact ⟨h1, h2⟩

theorem processMessages_preserves_inv (msgs : List (Nat × WSMessage)) :
    ∀ st : HunterState, HunterInv st → HunterInv (processMessages msgs st) := by
  induction msgs with
  | nil => intro st h; exact h
  | cons nm t ih =>
      intro st h
      exact ih _ (handle_preserves_inv nm.1 nm.2 st h)

/-- C8: from the state established by startHunting, every message sequence
preserves the invariants that the Tunisia-eligible counter never exceeds the
found counter and that the found counter equals the length of the
scholarship list; a scholarship_found message appends exactly one
scholarship, increments the found counter by one and increments the
Tunisia-eligible counter exactly when the tunisia_eligible flag is set; no
other message type changes these three pieces of state. -/
theorem liveAIHunter_counter_invariants :
    (∀ (st : HunterState) (msgs : List (Nat × WSMessage)),
       HunterInv (processMessages msgs (startHuntingReset st))) ∧
    (∀ (now : Nat) (s : Scholarship) (st : HunterState),
       (handleWebSocketMessage now (.scholarship_found s) st).foundScholarships
         = st.foundScholarships ++ [s] ∧
       (handleWebSocketMessage now (.scholarship_found s) st).huntingStats.scholarshipsFound
         = st.huntingStats.scholarshipsFound + 1 ∧
       (handleWebSocketMessage now (.scholarship_found s) st).huntingStats.tunisiaEligible
         = (if s.tunisia_eligible then st.huntingStats.tunisiaEligible + 1
            else st.huntingStats.tunisiaEligible)) ∧
    (∀ (now : Nat) (msg : WSMessage) (st : HunterState),
       msg.isScholarshipFound = false →
       (handleWebSocketMessage now msg st).foundScholarships = st.foundScholarships ∧
       (handleWebSocketMessage now msg st).huntingStats.scholarshipsFound
         = st.huntingStats.scholarshipsFound ∧
       (handleWebSocketMessage now msg st).huntingStats.tunisiaEligible
         = st.huntingStats.tunisiaEligible) := by
  refine ⟨?_, ?_, ?_⟩
  · intro st msgs
    apply processMessages_preserves_inv
    exact ⟨Nat.le_refl 0, rfl⟩
  · intro now s st
    refine ⟨?_, ?_, ?_⟩ <;> simp [handleWebSocketMessage, addAIThought]
  · intro now msg st hmsg
    cases msg with
    | scholarship_found s => simp [WSMessage.isScholarshipFound] at hmsg
    | ai_thought m => refine ⟨?_, ?_, ?_⟩ <;> simp [handleWebSocketMessage, addAIThought]
    | website_visit url content =>
        refine ⟨?_, ?_, ?_⟩ <;>
          simp [handleWebSocketMessage, simulateBrowserNavigation]
    | ai_decision m => refine ⟨?_, ?_, ?_⟩ <;> simp [handleWebSocketMessage, addAIThought]
    | error m => refine ⟨?_, ?_, ?_⟩ <;> simp [handleWebSocketMessage, addAIThought]
    | status m => refine ⟨?_, ?_, ?_⟩ <;> simp [handleWebSocketMessage]
    | unknown => refine ⟨?_, ?_, ?_⟩ <;> simp [handleWebSocketMessage]

theorem liveAIHunter_counter_invariants_witness :
    (WSMessage.status "idle").isScholarshipFound = false ∧
    (handleWebSocketMessage 3 (.status "idle") sampleHunter).foundScholarships
        = sampleHunter.foundScholarships ∧
    HunterInv (processMessages
        [(1, .scholarship_found sampleScholarship), (2, .status "done")]
        (startHuntingReset sampleHunter)) :=
  ⟨rfl,
   ((liveAIHunter_counter_invariants.2.2 3 (.status "idle") sampleHunter) rfl).1,
   liveAIHunter_counter_invariants.1 sampleHunter
     [(1, .scholarship_found sampleScholarship), (2, .status "done")]⟩

/-- C7 counterexample: the claim that no retry or backoff logic exists in
this layer and that a failed external call is never re-attempted is false on
the code: WebSocketService.attemptReconnect at attempt count 0 schedules a
re-attempt of the dropped connection after the base backoff delay of 1000
milliseconds instead of giving up. -/
theorem attemptReconnect_retries_cex :
    attemptReconnect 0 = ReconnectAction.retryAfter 1000 1 ∧
    attemptReconnect 0 ≠ ReconnectAction.giveUp := by
  decide

/-- C7 amended: the AI-agent service layer records a failed completion call
exactly once as a failed Decision row without retrying it, but the frontend
WebSocketService does contain retry logic: a dropped connection is
re-attempted with exponential backoff, delay reconnectDelay times 2 to the
attempt count, until maxReconnectAttempts attempts have been made, after
which it gives up. -/
theorem reconnect_backoff_and_single_failure_record :
    (∀ a, a < maxReconnectAttempts →
       attemptReconnect a =
         ReconnectAction.retryAfter (reconnectDelay * 2 ^ a) (a + 1)) ∧
    (∀ a, maxReconnectAttempts ≤ a → attemptReconnect a = ReconnectAction.giveUp) ∧
    (∀ (complete : String → AgentLayer.ChatCompletionResult)
       (parse : String → Option AgentLayer.DecisionData)
       (dt din ctx : String) (startMs afterMs : Nat)
       (st : AgentLayer.AgentState) (err : String) (tfail : Int),
       complete (AgentLayer.decisionUserPrompt dt ctx din) = .failure err tfail →
       ∃ msg st',
         AgentLayer.make_decision complete parse dt din ctx startMs afterMs st
           = .error (msg, st') ∧
         st'.decisions.length = st.decisions.length + 1) := by
  refine ⟨?_, ?_, ?_⟩
  · intro a ha
    have h2 : ¬ a ≥ maxReconnectAttempts := by omega
    simp [attemptReconnect, h2]
  · intro a ha
    simp [attemptReconnect, ha]
  · intro complete parse dt din ctx startMs afterMs st err tfail hfail
    unfold AgentLayer.make_decision
    rw [hfail]
    exact ⟨_, _, rfl, by simp⟩

theorem reconnect_backoff_and_single_failure_record_witness :
    (2 < maxReconnectAttempts ∧
       attemptReconnect 2 = ReconnectAction.retryAfter 4000 3) ∧
    (maxReconnectAttempts ≤ 7 ∧ attemptReconnect 7 = ReconnectAction.giveUp) ∧
    ((fun _ : String => AgentLayer.ChatCompletionResult.failure "boom" 0)
        (AgentLayer.decisionUserPrompt "t" "c" "i") = .failure "boom" 0 ∧
     ∃ msg st',
       AgentLayer.make_decision (fun _ => .failure "boom" 0) (fun _ => none)
         "t" "i" "c" 0 5 AgentLayer.AgentState.empty = .error (msg, st') ∧
       st'.decisions.length = AgentLayer.AgentState.empty.decisions.length + 1) :=
  ⟨⟨by decide,
    by simpa using reconnect_backoff_and_single_failure_record.1 2 (by decide)⟩,
   ⟨by decide, reconnect_backoff_and_single_failure_record.2.1 7 (by decide)⟩,
   ⟨rfl,
    reconnect_backoff_and_single_failure_record.2.2 (fun _ => .failure "boom" 0)
      (fun _ => none) "t" "i" "c" 0 5 AgentLayer.AgentState.empty "boom" 0 rfl⟩⟩

theorem send_transmits_iff_witness :
    lookupConn [("dashboard", WSConn.mk 1)] "dashboard" = some (WSConn.mk 1) ∧
    (WSConn.mk 1).readyState = WebSocketOPEN ∧
    sendWS (fun s : String => s) [("dashboard", WSConn.mk 1)] "dashboard" "ping"
      = (true, some "ping") ∧
    sendWS (fun s : String => s) [("dashboard", WSConn.mk 3)] "dashboard" "ping"
      = (false, none) :=
  ⟨by decide, by decide,
   ((send_transmits_iff (fun s : String => s) [("dashboard", WSConn.mk 1)]
       "dashboard" "ping").1 (WSConn.mk 1) (by decide)).1 (by decide),
   ((send_transmits_iff (fun s : String => s) [("dashboard", WSConn.mk 3)]
       "dashboard" "ping").1 (WSConn.mk 3) (by decide)).2 (by decide)⟩

end Frontend

namespace AgentLayer

theorem append_left_ne_empty (s t : String) (h : s ≠ "") : s ++ t ≠ "" := by
  intro heq
  apply h
  have h2 : s.length + t.length = 0 := by
    have := congrArg String.length heq
    rwa [String.length_append] at this
  have hs0 : s.length = 0 := by omega
  cases s with
  | mk data =>
      cases data with
      | nil => rfl
      | cons c cs => simp [String.length] at hs0

/-- C1: on every completion failure, make_decision persists an AIDecision
row with success false, zero confidence, a non-empty error message and a
non-negative elapsed time, and re-raises only after persisting: the error
value observed by the caller carries the storage state already containing
the audit row. The persisted message always starts with the non-empty
prefix used when the exception is raised, so it is non-empty for every
client error string; the elapsed time is the difference of the clock
readings of the engine, non-negative under a monotone clock. -/
theorem make_decision_persists_failure
    (complete : String → ChatCompletionResult)
    (parse : String → Option DecisionData)
    (dt din ctx : String) (startMs afterMs : Nat) (st : AgentState)
    (err : String) (tfail : Int)
    (hclock : startMs ≤ afterMs)
    (hfail : complete (decisionUserPrompt dt ctx din) = .failure err tfail) :
    ∃ (msg : String) (st' : AgentState),
      make_decision complete parse dt din ctx startMs afterMs st
        = .error (msg, st') ∧
      ∃ row : AIDecision, st'.decisions = row :: st.decisions ∧
        row.success = false ∧ row.confidenceScore = 0 ∧
        row.errorMessage = some msg ∧ msg ≠ "" ∧ 0 ≤ row.processingTime := by
  unfold make_decision
  rw [hfail]
  refine ⟨_, _, rfl, _, rfl, rfl, rfl, rfl, ?_, ?_⟩
  · show ("AI decision failed: " ++ err) ≠ ""
    exact append_left_ne_empty _ _ (by decide)
  · show (0 : Int) ≤ (afterMs : Int) - (startMs : Int)
    omega

theorem make_decision_persists_failure_witness :
    (0 : Nat) ≤ 5 ∧
    ((fun _ : String => ChatCompletionResult.failure "API error: 500" 4)
        (decisionUserPrompt "strategy_planning" "initial search" "input")
      = .failure "API error: 500" 4) ∧
    (∃ (msg : String) (st' : AgentState),
       make_decision (fun _ => .failure "API error: 500" 4) (fun _ => none)
           "strategy_planning" "input" "initial search" 0 5 AgentState.empty
         = .error (msg, st') ∧
       ∃ row : AIDecision, st'.decisions = row :: AgentState.empty.decisions ∧
         row.success = false ∧ row.confidenceScore = 0 ∧
         row.errorMessage = some msg ∧ msg ≠ "" ∧ 0 ≤ row.processingTime) :=
  ⟨by decide, rfl,
   make_decision_persists_failure (fun _ => .failure "API error: 500" 4)
     (fun _ => none) "strategy_planning" "input" "initial search" 0 5
     AgentState.empty "API error: 500" 4 (by decide) rfl⟩

/-- C2 counterexample: the claim that every well-formed completion response
yields a confidence in the closed unit interval is false on the code:
make_decision persists the parsed confidence value unclamped. For the
well-formed JSON answer with decision expand, reasoning growth, confidence
1.5 and empty additional data (modelled by the parse function returning
exactly that dictionary), the persisted confidence_score is 1.5, outside
the unit interval. -/
theorem make_decision_confidence_cex :
    ∃ (row : AIDecision) (st' : AgentState),
      make_decision (fun _ => .success "json answer with confidence 1.5" (some 9) 3)
        (fun _ => some ⟨some "expand", some "growth", some ((3 : Rat) / 2), some []⟩)
        "strategy_planning" "input" "ctx" 0 5 AgentState.empty = .ok (row, st') ∧
      row.success = true ∧
      row.confidenceScore = (3 : Rat) / 2 ∧
      ¬ row.confidenceScore ≤ 1 := by
  refine ⟨_, _, rfl, rfl, rfl, ?_⟩
  norm_num

/-- C2 amended: on every successful completion response make_decision
returns an AIDecision with success true whose confidence_score equals the
confidence value of the parsed dictionary, defaulting to one half when the
dictionary has no confidence key or the text does not parse; the engine
does not clamp, so the score lies in the closed unit interval exactly when
the model-reported value does (and always in the default cases). -/
theorem make_decision_success_confidence
    (complete : String → ChatCompletionResult)
    (parse : String → Option DecisionData)
    (dt din ctx : String) (startMs afterMs : Nat) (st : AgentState)
    (c : String) (usage : Option Nat) (tp : Int)
    (hok : complete (decisionUserPrompt dt ctx din) = .success c usage tp) :
    ∃ (row : AIDecision) (st' : AgentState),
      make_decision complete parse dt din ctx startMs afterMs st
        = .ok (row, st') ∧
      row.success = true ∧
      (parse c = none → row.confidenceScore = (1 : Rat) / 2) ∧
      (∀ dd : DecisionData, parse c = some dd →
         row.confidenceScore = dd.confidence.getD ((1 : Rat) / 2)) ∧
      (∀ dd : DecisionData, parse c = some dd →
         (∀ q : Rat, dd.confidence = some q → 0 ≤ q ∧ q ≤ 1) →
         0 ≤ row.confidenceScore ∧ row.confidenceScore ≤ 1) := by
  unfold make_decision
  rw [hok]
  refine ⟨_, _, rfl, rfl, ?_, ?_, ?_⟩
  · intro hp; simp [hp]
  · intro dd hp; simp [hp]
  · intro dd hp hq
    simp only [hp]
    cases hc : dd.confidence with
    | none => simp [hc]; norm_num
    | some q =>
        have := hq q hc
        simpa [hc] using this

theorem make_decision_success_confidence_witness :
    ((fun _ : String => ChatCompletionResult.success "Focus on Europe first" none 3)
        (decisionUserPrompt "strategy_planning" "ctx" "input")
      = .success "Focus on Europe first" none 3) ∧
    (∃ (row : AIDecision) (st' : AgentState),
       make_decision (fun _ => .success "Focus on Europe first" none 3)
           (fun _ => none) "strategy_planning" "input" "ctx" 0 5 AgentState.empty
         = .ok (row, st') ∧
       row.success = true ∧
       ((fun _ : String => (none : Option DecisionData)) "Focus on Europe first" = none →
          row.confidenceScore = (1 : Rat) / 2) ∧
       (∀ dd : DecisionData,
          (fun _ : String => (none : Option DecisionData)) "Focus on Europe first" = some dd →
          row.confidenceScore = dd.confidence.getD ((1 : Rat) / 2)) ∧
       (∀ dd : DecisionData,
          (fun _ : String => (none : Option DecisionData)) "Focus on Europe first" = some dd →
          (∀ q : Rat, dd.confidence = some q → 0 ≤ q ∧ q ≤ 1) →
          0 ≤ row.confidenceScore ∧ row.confidenceScore ≤ 1)) :=
  ⟨rfl,
   make_decision_success_confidence (fun _ => .success "Focus on Europe first" none 3)
     (fun _ => none) "strategy_planning" "input" "ctx" 0 5 AgentState.empty
     "Focus on Europe first" none 3 rfl⟩

/-- C3 counterexample: the claim that the fallback output carries the
entire raw model text as the reasoning field is false on the code: for the
mocked completion returning the non-JSON text Focus on Europe first, the
fallback dictionary stores the raw text under the decision key and sets
the reasoning key to the fixed message that the response was not in JSON
format. -/
theorem make_decision_fallback_cex :
    ∃ (row : AIDecision) (st' : AgentState),
      make_decision (fun _ => .success "Focus on Europe first" none 3)
        (fun _ => none) "strategy_planning" "phase 1" "initial search" 0 5
        AgentState.empty = .ok (row, st') ∧
      row.outputData.reasoning = some "AI response was not in JSON format" ∧
      row.outputData.reasoning ≠ some "Focus on Europe first" ∧
      row.outputData.decision = some "Focus on Europe first" := by
  refine ⟨_, _, rfl, rfl, ?_, rfl⟩
  decide

/-- C3 amended: when the completion call succeeds but the returned text
does not parse as JSON, make_decision does not crash: it returns an
AIDecision with success true whose fallback output carries the entire raw
model text under the decision key, the fixed message that the response was
not in JSON format as the reasoning, confidence exactly one half, and
empty additional data; the persisted confidence_score is one half and the
persisted reasoning column is the fixed fallback message. -/
theorem make_decision_parse_fallback
    (complete : String → ChatCompletionResult)
    (parse : String → Option DecisionData)
    (dt din ctx : String) (startMs afterMs : Nat) (st : AgentState)
    (c : String) (usage : Option Nat) (tp : Int)
    (hok : complete (decisionUserPrompt dt ctx din) = .success c usage tp)
    (hparse : parse c = none) :
    ∃ (row : AIDecision) (st' : AgentState),
      make_decision complete parse dt din ctx startMs afterMs st
        = .ok (row, st') ∧
      row.success = true ∧
      row.outputData.decision = some c ∧
      row.outputData.reasoning = some "AI response was not in JSON format" ∧
      row.outputData.confidence = some ((1 : Rat) / 2) ∧
      row.outputData.additionalData = some [] ∧
      row.confidenceScore = (1 : Rat) / 2 ∧
      row.reasoning = "AI response was not in JSON format" := by
  unfold make_decision
  rw [hok]
  refine ⟨_, _, rfl, rfl, ?_, ?_, ?_, ?_, ?_, ?_⟩ <;> simp [hparse]

theorem make_decision_parse_fallback_witness :
    ((fun _ : String => ChatCompletionResult.success "Focus on Europe first" none 3)
        (decisionUserPrompt "strategy_planning" "initial search" "phase 1")
      = .success "Focus on Europe first" none 3) ∧
    ((fun _ : String => (none : Option DecisionData)) "Focus on Europe first" = none) ∧
    (∃ (row : AIDecision) (st' : AgentState),
       make_decision (fun _ => .success "Focus on Europe first" none 3)
           (fun _ => none) "strategy_planning" "phase 1" "initial search" 0 5
           AgentState.empty
         = .ok (row, st') ∧
       row.success = true ∧
       row.outputData.decision = some "Focus on Europe first" ∧
       row.outputData.reasoning = some "AI response was not in JSON format" ∧
       row.outputData.confidence = some ((1 : Rat) / 2) ∧
       row.outputData.additionalData = some [] ∧
       row.confidenceScore = (1 : Rat) / 2 ∧
       row.reasoning = "AI response was not in JSON format") :=
  ⟨rfl, rfl,
   make_decision_parse_fallback (fun _ => .success "Focus on Europe first" none 3)
     (fun _ => none) "strategy_planning" "phase 1" "initial search" 0 5
     AgentState.empty "Focus on Europe first" none 3 rfl rfl⟩

end AgentLayer

namespace AgentLayer

theorem truncateContent_idem (s : String) :
    truncateContent (truncateContent s) = truncateContent s := by
  simp [truncateContent, List.take_take]

/-- C4: analyze_content is a total function — it returns a result for
every input content string of any length, never raising — and the only use
it makes of the content is through the truncated prefix: the truncation is
an initial segment of the content of length at most analysisContentCap
(exactly analysisContentCap whenever the content is longer than the cap),
and analyzing the full content equals analyzing the truncated content, so
only the truncated prefix reaches the prompt sent to the completion
endpoint. -/
theorem analyze_content_total_and_truncates
    (complete : String → ChatCompletionResult)
    (parse : String → Option AnalysisParsed)
    (publish : List AIThought → String → JValue → Bool) (channelUp : Bool)
    (agentName content url analysisType : String) (now : Nat)
    (st : AgentState) :
    (∃ (r : AnalysisReturn) (st' : AgentState),
       analyze_content complete parse publish channelUp agentName content url
         analysisType now st = (r, st')) ∧
    (truncateContent content).data ++ content.data.drop analysisContentCap
      = content.data ∧
    (truncateContent content).length ≤ analysisContentCap ∧
    (analysisContentCap < content.length →
       (truncateContent content).length = analysisContentCap) ∧
    analyze_content complete parse publish channelUp agentName content url
        analysisType now st
      = analyze_content complete parse publish channelUp agentName
          (truncateContent content) url analysisType now st := by
  have hlen : (truncateContent content).length
      = min analysisContentCap content.length := by
    show (content.data.take analysisContentCap).length
      = min analysisContentCap content.data.length
    exact List.length_take analysisContentCap content.data
  refine ⟨⟨_, _, rfl⟩, ?_, ?_, ?_, ?_⟩
  · show content.data.take analysisContentCap
      ++ content.data.drop analysisContentCap = content.data
    exact List.take_append_drop analysisContentCap content.data
  · rw [hlen]; exact min_le_left _ _
  · intro hgt
    rw [hlen]
    exact min_eq_left (Nat.le_of_lt hgt)
  · simp only [analyze_content, truncateContent_idem]

theorem analyze_content_total_and_truncates_witness :
    analysisContentCap
      < (String.mk (List.replicate (analysisContentCap + 1) 'a')).length ∧
    (truncateContent (String.mk (List.replicate (analysisContentCap + 1) 'a'))).length
      = analysisContentCap ∧
    analyze_content (fun _ => .failure "down" 0) (fun _ => none)
        (fun _ _ _ => true) true "Master Scholarship Hunter"
        (String.mk (List.replicate (analysisContentCap + 1) 'a'))
        "http://e" "scholarship_detection" 0 AgentState.empty
      = analyze_content (fun _ => .failure "down" 0) (fun _ => none)
          (fun _ _ _ => true) true "Master Scholarship Hunter"
          (truncateContent (String.mk (List.replicate (analysisContentCap + 1) 'a')))
          "http://e" "scholarship_detection" 0 AgentState.empty := by
  have hlen : (String.mk (List.replicate (analysisContentCap + 1) 'a')).length
      = analysisContentCap + 1 := by
    show (List.replicate (analysisContentCap + 1) 'a').length
      = analysisContentCap + 1
    exact List.length_replicate _ _
  have h := analyze_content_total_and_truncates (fun _ => .failure "down" 0)
    (fun _ => none) (fun _ _ _ => true) true "Master Scholarship Hunter"
    (String.mk (List.replicate (analysisContentCap + 1) 'a'))
    "http://e" "scholarship_detection" 0 AgentState.empty
  refine ⟨?_, ?_, h.2.2.2.2⟩
  · rw [hlen]; omega
  · exact h.2.2.2.1 (by rw [hlen]; omega)

/-- C5: whenever the completion call inside analyze_content succeeds but
the model response cannot be parsed as the expected structured extraction,
analyze_content returns the error shape rather than raising: the error
field is set (to the fixed message "Failed to parse AI analysis"), the raw
response is carried for diagnosis, and the scholarships list has length
exactly zero. -/
theorem analyze_content_parse_failure
    (complete : String → ChatCompletionResult)
    (parse : String → Option AnalysisParsed)
    (publish : List AIThought → String → JValue → Bool) (channelUp : Bool)
    (agentName content url analysisType : String) (now : Nat)
    (st : AgentState)
    (c : String) (usage : Option Nat) (tp : Int)
    (hok : complete (analysisPrompt url analysisType (truncateContent content))
      = .success c usage tp)
    (hparse : parse c = none) :
    ∃ (r : AnalysisReturn) (st' : AgentState),
      analyze_content complete parse publish channelUp agentName content url
        analysisType now st = (r, st') ∧
      r.error = some "Failed to parse AI analysis" ∧
      r.rawResponse = some c ∧
      r.scholarships = [] ∧
      r.scholarships.length = 0 := by
  simp only [analyze_content, hok, hparse]
  exact ⟨_, _, rfl, rfl, rfl, rfl, rfl⟩

theorem analyze_content_parse_failure_witness :
    ((fun _ : String => ChatCompletionResult.success "not json" (some 4) 2)
        (analysisPrompt "http://e" "scholarship_detection"
          (truncateContent "page text"))
      = .success "not json" (some 4) 2) ∧
    ((fun _ : String => (none : Option AnalysisParsed)) "not json" = none) ∧
    (∃ (r : AnalysisReturn) (st' : AgentState),
       analyze_content (fun _ => .success "not json" (some 4) 2) (fun _ => none)
           (fun _ _ _ => true) true "Master Scholarship Hunter" "page text"
           "http://e" "scholarship_detection" 0 AgentState.empty = (r, st') ∧
       r.error = some "Failed to parse AI analysis" ∧
       r.rawResponse = some "not json" ∧
       r.scholarships = [] ∧
       r.scholarships.length = 0) :=
  ⟨rfl, rfl,
   analyze_content_parse_failure (fun _ => .success "not json" (some 4) 2)
     (fun _ => none) (fun _ _ _ => true) true "Master Scholarship Hunter"
     "page text" "http://e" "scholarship_detection" 0 AgentState.empty
     "not json" (some 4) 2 rfl rfl⟩

/-- C6 counterexample: the claim describes a flat broadcast envelope with
agentName, content, thoughtType, confidence and timestamp at top level,
but the payload the code publishes nests the thought fields under the key
thought and names the agent key agent: for a concrete recorded thought the
published payload has exactly the top-level keys type, agent and thought,
and none of the keys agentName, thoughtType or content appear at top
level, while the envelope written from the claim words has all six. -/
theorem think_envelope_cex :
    ∃ p : JValue,
      (think (fun _ _ _ => true) true "Master Scholarship Hunter" "found one"
          "discovery" "high" 7 AgentState.empty).2.broadcasts
        = [("dashboard", p)] ∧
      topKeys p = ["type", "agent", "thought"] ∧
      "agentName" ∉ topKeys p ∧
      "thoughtType" ∉ topKeys p ∧
      "content" ∉ topKeys p ∧
      topKeys (claimEnvelope "Master Scholarship Hunter" "found one" "discovery"
          ((4 : Rat) / 5) 7)
        = ["type", "agentName", "content", "thoughtType", "confidence",
           "timestamp"] := by
  refine ⟨_, rfl, rfl, ?_, ?_, ?_, rfl⟩ <;> decide

/-- C6 amended: think persists and returns the AIThought for every publish
behaviour, including a failing broadcast: the returned thought heads the
thought store, the decision store is untouched, and with a configured
channel layer the broadcast attempt targets the fixed dashboard topic with
the nested payload dashboardPayload (type ai_thinking, the agent name
under agent, and the thought fields — including the fixed confidence 0.8 —
under thought); without a channel layer no attempt is made and the thought
is still persisted. The result depends on the publish callback only
through its value at the post-write thought store, so the publish step
runs after the durable write, and a broadcast failure neither fails the
call nor removes the thought. -/
theorem think_durable_broadcast
    (publish : List AIThought → String → JValue → Bool) (channelUp : Bool)
    (agentName content thoughtType importance : String) (now : Nat)
    (st : AgentState) :
    (think publish channelUp agentName content thoughtType importance now st).1
      = ⟨agentName, thoughtType, content, importance, (4 : Rat) / 5, now⟩ ∧
    (think publish channelUp agentName content thoughtType importance now st).2.thoughts
      = ⟨agentName, thoughtType, content, importance, (4 : Rat) / 5, now⟩ :: st.thoughts ∧
    (⟨agentName, thoughtType, content, importance, (4 : Rat) / 5, now⟩ : AIThought)
      ∈ (think publish channelUp agentName content thoughtType importance now st).2.thoughts ∧
    (think publish channelUp agentName content thoughtType importance now st).2.decisions
      = st.decisions ∧
    (channelUp = true →
       (think publish channelUp agentName content thoughtType importance now st).2.broadcasts
         = ("dashboard",
             dashboardPayload agentName
               ⟨agentName, thoughtType, content, importance, (4 : Rat) / 5, now⟩)
           :: st.broadcasts) ∧
    (channelUp = false →
       (think publish channelUp agentName content thoughtType importance now st).2.broadcasts
         = st.broadcasts) ∧
    (∀ publishB : List AIThought → String → JValue → Bool,
       publish
           (⟨agentName, thoughtType, content, importance, (4 : Rat) / 5, now⟩ :: st.thoughts)
           "dashboard"
           (dashboardPayload agentName
             ⟨agentName, thoughtType, content, importance, (4 : Rat) / 5, now⟩)
         = publishB
             (⟨agentName, thoughtType, content, importance, (4 : Rat) / 5, now⟩ :: st.thoughts)
             "dashboard"
             (dashboardPayload agentName
               ⟨agentName, thoughtType, content, importance, (4 : Rat) / 5, now⟩) →
       think publish channelUp agentName content thoughtType importance now st
         = think publishB channelUp agentName content thoughtType importance now st) := by
  have hth : ∀ pub : List AIThought → String → JValue → Bool,
      (think pub channelUp agentName content thoughtType importance now st).2.thoughts
        = ⟨agentName, thoughtType, content, importance, (4 : Rat) / 5, now⟩ :: st.thoughts := by
    intro pub
    simp only [think, broadcast_thinking]
    split
    · split <;> rfl
    · rfl
  refine ⟨rfl, hth publish, ?_, ?_, ?_, ?_, ?_⟩
  · rw [hth publish]; exact List.mem_cons_self _ _
  · simp only [think, broadcast_thinking]
    split
    · split <;> rfl
    · rfl
  · intro hup
    subst hup
    simp only [think, broadcast_thinking]
    rw [if_pos trivial]
    split <;> rfl
  · intro hdown
    subst hdown
    simp only [think, broadcast_thinking]
    rw [if_neg Bool.false_ne_true]
  · intro publishB hheq
    by_cases hup : channelUp = true
    · by_cases hd : publish
          (⟨agentName, thoughtType, content, importance, (4 : Rat) / 5, now⟩ :: st.thoughts)
          "dashboard"
          (dashboardPayload agentName
            ⟨agentName, thoughtType, content, importance, (4 : Rat) / 5, now⟩) = true
      · have hd2 : publishB
            (⟨agentName, thoughtType, content, importance, (4 : Rat) / 5, now⟩ :: st.thoughts)
            "dashboard"
            (dashboardPayload agentName
              ⟨agentName, thoughtType, content, importance, (4 : Rat) / 5, now⟩) = true := by
          rw [← hheq]; exact hd
        simp [think, broadcast_thinking, hup, hd, hd2]
      · have hd2 : ¬ publishB
            (⟨agentName, thoughtType, content, importance, (4 : Rat) / 5, now⟩ :: st.thoughts)
            "dashboard"
            (dashboardPayload agentName
              ⟨agentName, thoughtType, content, importance, (4 : Rat) / 5, now⟩) = true := by
          rw [← hheq]; exact hd
        simp [think, broadcast_thinking, hup, hd, hd2]
    · have hdown : channelUp = false := by
        cases channelUp with
        | true => exact absurd rfl hup
        | false => rfl
      simp [think, broadcast_thinking, hdown]

theorem think_durable_broadcast_witness :
    (think (fun _ _ _ => false) true "master" "found 3" "discovery" "high" 7
        AgentState.empty).2.thoughts
      = [⟨"master", "discovery", "found 3", "high", (4 : Rat) / 5, 7⟩] ∧
    (true = true →
       (think (fun _ _ _ => false) true "master" "found 3" "discovery" "high" 7
           AgentState.empty).2.broadcasts
         = [("dashboard",
             dashboardPayload "master"
               ⟨"master", "discovery", "found 3", "high", (4 : Rat) / 5, 7⟩)]) ∧
    think (fun _ _ _ => false) true "master" "found 3" "discovery" "high" 7
        AgentState.empty
      = think (fun _ _ _ => false) true "master" "found 3" "discovery" "high" 7
          AgentState.empty :=
  ⟨(think_durable_broadcast (fun _ _ _ => false) true "master" "found 3"
      "discovery" "high" 7 AgentState.empty).2.1,
   fun h =>
     (think_durable_broadcast (fun _ _ _ => false) true "master" "found 3"
       "discovery" "high" 7 AgentState.empty).2.2.2.2.1 h,
   (think_durable_broadcast (fun _ _ _ => false) true "master" "found 3"
      "discovery" "high" 7 AgentState.empty).2.2.2.2.2.2
     (fun _ _ _ => false) rfl⟩

end AgentLayer
